import Mathlib

/-!
Verification development for the `ldap-exporter` repository.

This file gives a shallow embedding, in Lean, of the value-typing and
metric-synthesis engine (`src/ldap_exporter/prometheus.py`) and of the
cache/refresh engine (`src/ldap_exporter/ldap.py`), together with theorems
settling the specification claims about them.

Modelling conventions:
 - Python `str` values are Lean `String`s; most string processing is done on
   `List Char`, which matches Python's code-point view of `str`.
 - Python `int` is `Int`; Python `float` is modelled as an exact rational
   (`PyFloat` below, a normalized numerator/denominator pair).  Every float
   arising in the claims (2.5, 3600, 9000.0, 1024, ...) is exactly
   representable in binary floating point, so the rational model agrees with
   CPython on all values the claims exercise.
 - Python regular expressions used by the code are modelled by direct
   character-list parsers, faithful to the regex on ASCII input.
 - Exceptions are modelled with `Except String`; `Option` marks the one spot
   where the code can produce no result for a key.
 - I/O outcomes (the LDAP search, reconnecting) are passed to the modelled
   functions as explicit `Except`/`Bool` data.
-/

deriving instance DecidableEq for Except

/-! ## Basic character and string utilities -/

/-- Whitespace characters recognised by Python's regex class `\s` (ASCII part). -/
def isPySpace (c : Char) : Bool :=
  c = ' ' || c = '\t' || c = '\n' || c = '\x0d' || c = '\x0b' || c = '\x0c'

/-- Word characters recognised by Python's regex class `\w` (ASCII part). -/
def isPyWord (c : Char) : Bool :=
  c.isAlphanum || c = '_'

/-- ASCII lower-casing of one character, as Python `str.lower` does on ASCII. -/
def pyLowerChar (c : Char) : Char := c.toLower

/-- Model of Python `str.lower` (ASCII fragment). -/
def strLower (s : String) : String := (s.toList.map pyLowerChar).asString

/-- Model of Python `suffix in s` is `listHasSub`; here: `s.endswith suffix`. -/
def strEndsWith (s suffix : String) : Bool :=
  List.isSuffixOf suffix.toList s.toList

/-- Model of Python `s.startswith p`. -/
def strStartsWith (s p : String) : Bool :=
  List.isPrefixOf p.toList s.toList

/-- Contiguous-substring test over character lists (Python `needle in hay`). -/
def listHasSub (needle : List Char) : List Char → Bool
  | [] => needle.isEmpty
  | h :: t => List.isPrefixOf needle (h :: t) || listHasSub needle t

/-- Model of Python `needle in hay` on strings. -/
def strContains (hay needle : String) : Bool :=
  listHasSub needle.toList hay.toList

/-- Split a character list at every occurrence of `c` (Python `s.split(c)`). -/
def splitOnChar (c : Char) : List Char → List (List Char)
  | [] => [[]]
  | x :: rest =>
    if x = c then [] :: splitOnChar c rest
    else
      match splitOnChar c rest with
      | h :: t => (x :: h) :: t
      | [] => [[x]]

/-- Split a string on one separator character, Python `s.split(sep)` style. -/
def strSplitOn (s : String) (c : Char) : List String :=
  (splitOnChar c s.toList).map List.asString

/-- Model of Python `s[:-2]` for strings of length at least 2. -/
def dropLast2 (s : String) : String :=
  s.toList.dropLast.dropLast.asString

/-- Replace every `'.'` with `'_'`, Python `s.replace(".", "_")`. -/
def replaceDots (s : String) : String :=
  (s.toList.map (fun c => if c = '.' then '_' else c)).asString

/-- Numeric value of a digit run, Python `int` on a digit string. -/
def natOfDigits (l : List Char) : Nat :=
  l.foldl (fun a c => a * 10 + (c.toNat - 48)) 0

/-- One decimal digit as a character. -/
def digitChar (d : Nat) : Char := Char.ofNat (48 + d)

/-- Decimal rendering of a natural number (fuel-based, fuel is always enough). -/
def natDigitsAux : Nat → Nat → List Char → List Char
  | 0, _, acc => acc
  | Nat.succ fuel, n, acc =>
    if n < 10 then digitChar n :: acc
    else natDigitsAux fuel (n / 10) (digitChar (n % 10) :: acc)

/-- Decimal rendering of a natural number. -/
def natToStr (n : Nat) : String := (natDigitsAux (n + 1) n []).asString

/-- Decimal rendering of an integer, as Python `str(int)`. -/
def intToStr (n : Int) : String :=
  if 0 ≤ n then natToStr n.toNat else "-" ++ natToStr n.natAbs

/-! ## Exact rationals standing in for Python floats

Mathlib's `Rat` normalizes through well-founded `Nat.gcd`, which the kernel
cannot evaluate; `PyFloat` uses a fuel-based gcd so that every theorem below
can be checked by `decide`. -/

/-- Euclid's algorithm with explicit fuel (`b + 1` steps always suffice). -/
def natGcdAux : Nat → Nat → Nat → Nat
  | 0, a, _ => a
  | Nat.succ fuel, a, b => if b = 0 then a else natGcdAux fuel b (a % b)

/-- Greatest common divisor, kernel-computable. -/
def natGcd (a b : Nat) : Nat := natGcdAux (b + 1) a b

/-- Exact rational value of a Python float. Kept normalized by construction. -/
structure PyFloat where
  num : Int
  den : Nat
deriving DecidableEq

/-- Build a normalized `PyFloat` from a numerator and a positive denominator. -/
def pyFloatNorm (n : Int) (d : Nat) : PyFloat :=
  if d = 0 then ⟨0, 1⟩
  else
    let g := natGcd n.natAbs d
    if g = 0 then ⟨0, 1⟩
    else
      let a := n.natAbs / g
      ⟨if 0 ≤ n then (a : Int) else -(a : Int), d / g⟩

/-- Embed an integer as a Python float. -/
def pfOfInt (n : Int) : PyFloat := ⟨n, 1⟩

/-- Addition of Python floats (exact). -/
def pfAdd (x y : PyFloat) : PyFloat :=
  pyFloatNorm (x.num * (y.den : Int) + y.num * (x.den : Int)) (x.den * y.den)

/-- Multiplication of Python floats (exact). -/
def pfMul (x y : PyFloat) : PyFloat :=
  pyFloatNorm (x.num * y.num) (x.den * y.den)

/-- Python `int()` truncation toward zero of a float. -/
def pfTrunc (x : PyFloat) : Int :=
  if 0 ≤ x.num then ((x.num.toNat / x.den : Nat) : Int)
  else -((x.num.natAbs / x.den : Nat) : Int)

/-- Python `repr`/`str` of a float, for the cases the code prints (a value
with a finite decimal expansion); values outside that never arise here. -/
def pfToStr (x : PyFloat) : String :=
  if x.den = 1 then intToStr x.num ++ ".0"
  else intToStr x.num ++ "/" ++ natToStr x.den

/-! ## Key-sorted association lists (Python `dict(sorted(d.items()))`) -/

/-- Code-point lexicographic comparison of character lists, the order Python
uses to compare `str` values. -/
def lexLe : List Char → List Char → Bool
  | [], _ => true
  | _ :: _, [] => false
  | a :: as, b :: bs =>
    if a.toNat < b.toNat then true
    else if b.toNat < a.toNat then false
    else lexLe as bs

/-- String comparison by code points, Python `a <= b` on `str`. -/
def strLe (a b : String) : Bool := lexLe a.toList b.toList

/-- Ordering of association-list pairs by key.  Python's `sorted` compares
whole pairs, but the pairs come from a `dict`, whose keys are unique, so the
comparison never reaches the second component. -/
def keyLe {α : Type} (a b : String × α) : Prop := strLe a.1 b.1 = true

instance {α : Type} : DecidableRel (@keyLe α) :=
  fun _ _ => inferInstanceAs (Decidable (_ = true))

/-- Model of Python `dict(sorted(d.items()))` as a sort of the pair list. -/
def sortPairs {α : Type} (l : List (String × α)) : List (String × α) :=
  List.insertionSort keyLe l

/-- Boolean check that adjacent keys are in nondecreasing order. -/
def keysAdjSorted {α : Type} : List (String × α) → Bool
  | [] => true
  | [_] => true
  | a :: b :: t => strLe a.1 b.1 && keysAdjSorted (b :: t)

/-- Model of Python `dict` insertion: overwrite in place or append. -/
def dictInsert {α : Type} (l : List (String × α)) (k : String) (v : α) :
    List (String × α) :=
  if l.any (fun p => p.1 = k) then
    l.map (fun p => if p.1 = k then (k, v) else p)
  else l ++ [(k, v)]

/-! ## LDAP attribute values

`ldap3`'s `entry_attributes_as_dict` maps each attribute name to either a
primitive (string, number, boolean, byte string) or a list of primitives —
the `RawEntry` value domain of the design. -/

/-- Primitive attribute value. -/
inductive Prim where
  | str (s : String)
  | int (n : Int)
  | float (q : PyFloat)
  | bool (b : Bool)
  | bytes (bs : List Nat)
deriving DecidableEq

/-- Attribute value: a primitive or a list of primitives. -/
inductive PyVal where
  | prim (p : Prim)
  | list (l : List Prim)
deriving DecidableEq

/-- Shorthand for a string value. -/
def pstr (s : String) : PyVal := PyVal.prim (Prim.str s)

/-- Shorthand for an integer value. -/
def pint (n : Int) : PyVal := PyVal.prim (Prim.int n)

/-- Shorthand for a float value. -/
def pfloat (q : PyFloat) : PyVal := PyVal.prim (Prim.float q)

/-- Shorthand for a boolean value. -/
def pbool (b : Bool) : PyVal := PyVal.prim (Prim.bool b)

/-- Shorthand for a byte-string value. -/
def pbytes (bs : List Nat) : PyVal := PyVal.prim (Prim.bytes bs)

/-- Python `type(v).__name__` for the values that reach the typer's fallback. -/
def pyTypeName : PyVal → String
  | PyVal.prim (Prim.str _) => "str"
  | PyVal.prim (Prim.int _) => "int"
  | PyVal.prim (Prim.float _) => "float"
  | PyVal.prim (Prim.bool _) => "bool"
  | PyVal.prim (Prim.bytes _) => "bytes"
  | PyVal.list _ => "list"

/-- An attribute map of one directory entry. -/
abbrev Attrs := List (String × PyVal)

/-- A cached snapshot: entry key to attribute map, in iteration order. -/
abbrev Snapshot := List (String × Attrs)

/-- A search result: (distinguished name, raw attribute map) pairs. -/
abbrev SearchRes := List (String × Attrs)

/-! ## UTF-8 decoding (Python `bytes.decode("utf-8")`) -/

/-- Strict UTF-8 decoding of a byte list; `none` models `UnicodeDecodeError`.
Continuation bytes, overlong forms and surrogates are rejected as CPython
does. -/
def utf8Decode : List Nat → Option (List Char)
  | [] => some []
  | b1 :: rest =>
    if b1 < 0x80 then
      (utf8Decode rest).map (fun cs => Char.ofNat b1 :: cs)
    else
      match rest with
      | b2 :: rest2 =>
        if 0xc2 ≤ b1 && b1 ≤ 0xdf && 0x80 ≤ b2 && b2 ≤ 0xbf then
          (utf8Decode rest2).map
            (fun cs => Char.ofNat ((b1 - 0xc0) * 64 + (b2 - 0x80)) :: cs)
        else
          match rest2 with
          | b3 :: rest3 =>
            if 0xe0 ≤ b1 && b1 ≤ 0xef &&
               0x80 ≤ b2 && b2 ≤ 0xbf && 0x80 ≤ b3 && b3 ≤ 0xbf &&
               (b1 ≠ 0xe0 || 0xa0 ≤ b2) && (b1 ≠ 0xed || b2 ≤ 0x9f) then
              (utf8Decode rest3).map
                (fun cs =>
                  Char.ofNat ((b1 - 0xe0) * 4096 + (b2 - 0x80) * 64 + (b3 - 0x80)) :: cs)
            else
              match rest3 with
              | b4 :: rest4 =>
                if 0xf0 ≤ b1 && b1 ≤ 0xf4 &&
                   0x80 ≤ b2 && b2 ≤ 0xbf && 0x80 ≤ b3 && b3 ≤ 0xbf &&
                   0x80 ≤ b4 && b4 ≤ 0xbf &&
                   (b1 ≠ 0xf0 || 0x90 ≤ b2) && (b1 ≠ 0xf4 || b2 ≤ 0x8f) then
                  (utf8Decode rest4).map
                    (fun cs =>
                      Char.ofNat ((b1 - 0xf0) * 262144 + (b2 - 0x80) * 4096 +
                        (b3 - 0x80) * 64 + (b4 - 0x80)) :: cs)
                else none
              | [] => none
          | [] => none
      | [] => none

/-- Python `bs.decode("utf-8")` as an optional string. -/
def decodeUtf8 (bs : List Nat) : Option String :=
  (utf8Decode bs).map List.asString

/-! ## `LdapClient` (`src/ldap_exporter/ldap.py`) -/

/-- Per-primitive step of `LdapClient._unravel_values`: bytes are decoded to
UTF-8 when possible, everything else passes through. -/
def unravelPrim : Prim → Prim
  | Prim.bytes bs =>
    match decodeUtf8 bs with
    | some s => Prim.str s
    | none => Prim.bytes bs
  | p => p

/-- Per-value step of `LdapClient._unravel_values`: a one-element list is
unwrapped to its element first, then strings and numbers are kept, bytes are
decoded, and everything else (lists of length other than one) is forwarded. -/
def unravelVal : PyVal → PyVal
  | PyVal.prim p => PyVal.prim (unravelPrim p)
  | PyVal.list [p] => PyVal.prim (unravelPrim p)
  | PyVal.list l => PyVal.list l

/-- Model of `LdapClient._unravel_values`: drops the `objectclass` attribute
and unravels every remaining value. -/
def unravel_values (values : Attrs) : Attrs :=
  values.filterMap
    (fun kv => if kv.1 = "objectclass" then none else some (kv.1, unravelVal kv.2))

/-- Remove every occurrence of the literal `cn=` — Python
`re.sub(r'cn=', '', p)` removes all (case-sensitive) occurrences, not only a
leading one. -/
def removeCn : List Char → List Char
  | 'c' :: 'n' :: '=' :: rest => removeCn rest
  | c :: rest => c :: removeCn rest
  | [] => []

/-- Replace every maximal whitespace run with a single underscore — Python
`re.sub(r'\s+', '_', p)`.  The boolean records whether the previous character
was part of a run already replaced. -/
def collapseWsAux : Bool → List Char → List Char
  | _, [] => []
  | prevSpace, c :: rest =>
    if isPySpace c then
      if prevSpace then collapseWsAux true rest
      else '_' :: collapseWsAux true rest
    else c :: collapseWsAux false rest

/-- Replace every maximal whitespace run with a single underscore. -/
def collapseWs (l : List Char) : List Char := collapseWsAux false l

/-- Model of `LdapClient._dn_to_metric_name`: split the DN on commas, delete
every `cn=`, reverse the component order, collapse whitespace runs to
underscores, and join with dots. -/
def dn_to_metric_name (dn : String) : String :=
  (List.intercalate ['.']
    (((splitOnChar ',' dn.toList).map removeCn).reverse.map collapseWs)).asString

/-- The cache contents built by one successful `LdapClient._update_cache`
pass, in Python `dict` insertion order: the synthetic `Monitor.Connection`
entry first, then one entry per search result keyed by its normalized DN. -/
def build_new_cache (res : SearchRes) (hostname : String) (bound : Bool) :
    Snapshot :=
  res.foldl
    (fun acc e => dictInsert acc (dn_to_metric_name e.1) (unravel_values e.2))
    [("Monitor.Connection", [("hostname", pstr hostname), ("bound", pbool bound)])]

/-- Model of `LdapClient._update_cache` after a successful search: the first
component is the value stored in `self._cache` (`dict(sorted(...))`), the
second is the function's return value (the unsorted `new_cache`). -/
def update_cache (res : SearchRes) (hostname : String) (bound : Bool) :
    Snapshot × Snapshot :=
  (sortPairs (build_new_cache res hostname bound),
   build_new_cache res hostname bound)

/-- Model of `LdapClient.get_cached_results`.  The cache is read under the
lock; when it is still unset, one synchronous `_update_cache` runs inline,
whose raw (unsorted) mapping is returned while the sorted one is stored.  A
search failure on that very first call propagates to the caller.  Returns
(result delivered to the caller, cache afterwards). -/
def get_cached_results (cache : Option Snapshot)
    (searchResult : Except String SearchRes) (hostname : String)
    (bound : Bool) : Except String Snapshot × Option Snapshot :=
  match cache with
  | some c => (Except.ok c, some c)
  | none =>
    match searchResult with
    | Except.error e => (Except.error e, none)
    | Except.ok res =>
      let uc := update_cache res hostname bound
      (Except.ok uc.2, some uc.1)

/-- Mutable state of an `LdapClient` relevant to refreshing: the cached
snapshot and whether the connection is currently bound. -/
structure ClientState where
  cache : Option Snapshot
  bound : Bool
deriving DecidableEq

/-- Outcome data of one refresh cycle's I/O: what the directory search would
return, whether `_connect` would succeed, and the server hostname. -/
structure RefreshEnv where
  searchResult : Except String SearchRes
  reconnectOk : Bool
  hostname : String

/-- One iteration of `LdapClient._periodic_refresh`: if the connection is
bound, refresh the cache; otherwise reconnect first; any exception is
swallowed (`except Exception: pass`), leaving the state unchanged. -/
def periodic_refresh_once (st : ClientState) (env : RefreshEnv) : ClientState :=
  if st.bound then
    match env.searchResult with
    | Except.ok res => ⟨some (update_cache res env.hostname true).1, true⟩
    | Except.error _ => st
  else
    if env.reconnectOk then
      match env.searchResult with
      | Except.ok res => ⟨some (update_cache res env.hostname true).1, true⟩
      | Except.error _ => ⟨st.cache, true⟩
    else st

/-! ## Static tables (`src/ldap_exporter/prometheus.py`) -/

/-- Lookup in a literal table, Python `d.get(k, default)`. -/
def tableGet {α : Type} (t : List (String × α)) (k : String) (dflt : α) : α :=
  match t.lookup k with
  | some v => v
  | none => dflt

/-- Token to canonical base unit, `si_base_units` in the source. -/
def si_base_units : List (String × String) :=
  [("time", "seconds"), ("seconds", "seconds"), ("ms", "seconds"),
   ("milliseconds", "seconds"), ("byte", "bytes"), ("bytes", "bytes"),
   ("kb", "bytes"), ("kib", "bytes"), ("kilobytes", "bytes"), ("mb", "bytes"),
   ("megabytes", "bytes"), ("gb", "bytes"), ("gigabytes", "bytes"),
   ("tb", "bytes"), ("terabytes", "bytes")]

/-- Token to multiplier, `si_unit_factor` in the source. -/
def si_unit_factor : List (String × PyFloat) :=
  [("days", pfOfInt 86400), ("day", pfOfInt 86400), ("d", pfOfInt 86400),
   ("hours", pfOfInt 3600), ("hour", pfOfInt 3600), ("h", pfOfInt 3600),
   ("min", pfOfInt 60), ("minutes", pfOfInt 60), ("minute", pfOfInt 60),
   ("s", pfOfInt 1), ("seconds", pfOfInt 1), ("second", pfOfInt 1),
   ("ms", ⟨1, 1000⟩), ("milliseconds", ⟨1, 1000⟩), ("millisecond", ⟨1, 1000⟩),
   ("byte", pfOfInt 1), ("bytes", pfOfInt 1),
   ("kb", pfOfInt 1024), ("kib", pfOfInt 1024), ("kilobytes", pfOfInt 1024),
   ("mb", pfOfInt (1024 * 1024)), ("megabytes", pfOfInt (1024 * 1024)),
   ("gb", pfOfInt (1024 * 1024 * 1024)),
   ("gigabytes", pfOfInt (1024 * 1024 * 1024)),
   ("tb", pfOfInt (1024 * 1024 * 1024 * 1024)),
   ("terabytes", pfOfInt (1024 * 1024 * 1024 * 1024))]

/-- Driver run states, `driver_states` in the source. -/
def driver_states : List (String × Int) :=
  [("unknown", -1), ("running", 1), ("stopped", 0), ("starting", 2),
   ("shutting down", 3)]

/-- Driver start options, `start_options` in the source. -/
def start_options : List (String × Int) :=
  [("disabled", 0), ("manual", 1), ("autostart", 2)]

/-- Driver types, `types` in the source. -/
def types : List (String × Int) :=
  [("unknown", -1), ("none", 0), ("remote", 1), ("local", 2)]

/-- Job configurations, `job_stats_configurations` in the source. -/
def job_stats_configurations : List (String × Int) :=
  [("unknown", -1), ("disabled", 0), ("enabled", 1)]

/-- Job states, `job_stats_states` in the source. -/
def job_stats_states : List (String × Int) :=
  [("unknown", -1), ("stopped", 0), ("running", 1), ("started", 1)]

/-- JVM thread states, `jvm_stats_states` in the source. -/
def jvm_stats_states : List (String × Int) :=
  [("unknown", -1), ("NEW", 0), ("TIMED_WAITING", 1), ("WAITING", 2),
   ("RUNNABLE", 3)]

/-! ## Literal parsers modelling the typer's regular expressions -/

/-- Full match of `^\d+$`. -/
def isIntLitList (l : List Char) : Bool :=
  !l.isEmpty && l.all Char.isDigit

/-- Full match of `^\d+$` on a string. -/
def isIntLit (s : String) : Bool := isIntLitList s.toList

/-- Full match of `^\d+\.\d+$`. -/
def isFloatLitList (l : List Char) : Bool :=
  let d1 := l.takeWhile Char.isDigit
  let r := l.dropWhile Char.isDigit
  !d1.isEmpty &&
    (match r with
     | '.' :: d2 => !d2.isEmpty && d2.all Char.isDigit
     | _ => false)

/-- Full match of `^\d+\.\d+$` on a string. -/
def isFloatLit (s : String) : Bool := isFloatLitList s.toList

/-- Python `float` of a matched `\d+\.\d+` literal. -/
def parseFloatLit (s : String) : PyFloat :=
  let d1 := s.toList.takeWhile Char.isDigit
  let r := s.toList.dropWhile Char.isDigit
  match r with
  | '.' :: d2 =>
    pyFloatNorm ((natOfDigits d1 * 10 ^ d2.length + natOfDigits d2 : Nat) : Int)
      (10 ^ d2.length)
  | _ => pfOfInt ((natOfDigits d1 : Nat) : Int)

/-- Python `int` of a matched `^\d+$` literal. -/
def parseIntLit (s : String) : Int := ((natOfDigits s.toList : Nat) : Int)

/-- Full match of `^([-+]?(?:\d+\.\d+|\d+))\s+(\w+)$`, returning (the numeric
group contained a decimal point, its exact value with sign, the unit word).
The side condition `match.group(1).count('.') <= 1` in the source is always
true for this pattern and imposes nothing. -/
def parseNumUnit (s : String) : Option (Bool × PyFloat × String) :=
  let l := s.toList
  let sgn : Int × List Char :=
    match l with
    | '+' :: t => (1, t)
    | '-' :: t => (-1, t)
    | _ => (1, l)
  let d1 := sgn.2.takeWhile Char.isDigit
  let r1 := sgn.2.dropWhile Char.isDigit
  if d1.isEmpty then none
  else
    match r1 with
    | '.' :: r2 =>
      let d2 := r2.takeWhile Char.isDigit
      let r3 := r2.dropWhile Char.isDigit
      if d2.isEmpty then none
      else
        let ws := r3.takeWhile isPySpace
        let r4 := r3.dropWhile isPySpace
        if ws.isEmpty then none
        else if !r4.isEmpty && r4.all isPyWord then
          some (true,
            pyFloatNorm
              (sgn.1 * ((natOfDigits d1 * 10 ^ d2.length + natOfDigits d2 : Nat) : Int))
              (10 ^ d2.length),
            r4.asString)
        else none
    | _ =>
      let ws := r1.takeWhile isPySpace
      let r4 := r1.dropWhile isPySpace
      if ws.isEmpty then none
      else if !r4.isEmpty && r4.all isPyWord then
        some (false, ⟨sgn.1 * ((natOfDigits d1 : Nat) : Int), 1⟩, r4.asString)
      else none

/-- Full case-insensitive match of `^(true|false)$`. -/
def parseBoolLit (s : String) : Option Bool :=
  if strLower s = "true" then some true
  else if strLower s = "false" then some false
  else none

/-- Full match of `^\d{14}Z$`. -/
def is14Z (s : String) : Bool :=
  s.toList.length = 15 && (s.toList.take 14).all Char.isDigit &&
    s.toList.getLast? = some 'Z'

/-- Leap-year test of the proleptic Gregorian calendar. -/
def isLeapYear (y : Nat) : Bool :=
  (y % 4 = 0 && y % 100 ≠ 0) || y % 400 = 0

/-- Number of days in a month. -/
def daysInMonth (y m : Nat) : Nat :=
  if m = 2 then (if isLeapYear y then 29 else 28)
  else if m = 4 || m = 6 || m = 9 || m = 11 then 30
  else 31

/-- Days from 1970-01-01 to year/month/day (years 1..9999), the civil-days
computation used to model CPython's timestamp arithmetic. -/
def daysFromCivil (y m d : Nat) : Int :=
  let yy := if m ≤ 2 then y - 1 else y
  let era := yy / 400
  let yoe := yy % 400
  let mp := if 2 < m then m - 3 else m + 9
  let doy := (153 * mp + 2) / 5 + d - 1
  let doe := yoe * 365 + yoe / 4 - yoe / 100 + doy
  ((era * 146097 + doe : Nat) : Int) - 719468

/-- Model of `datetime.strptime(val, '%Y%m%d%H%M%SZ')` followed by
`.timestamp()` on a 14-digit value: `none` when the field values do not form
a valid datetime (the `ValueError` CPython raises), otherwise the epoch
seconds.  The naive datetime is interpreted in UTC (the exporter's process
timezone). -/
def strptime14Z (s : String) : Option Int :=
  let l := s.toList
  let y := natOfDigits (l.take 4)
  let mo := natOfDigits ((l.drop 4).take 2)
  let dy := natOfDigits ((l.drop 6).take 2)
  let h := natOfDigits ((l.drop 8).take 2)
  let mi := natOfDigits ((l.drop 10).take 2)
  let sec := natOfDigits ((l.drop 12).take 2)
  if 1 ≤ y && 1 ≤ mo && mo ≤ 12 && 1 ≤ dy && dy ≤ daysInMonth y mo &&
     h ≤ 23 && mi ≤ 59 && sec ≤ 59 then
    some (daysFromCivil y mo dy * 86400 + ((h * 3600 + mi * 60 + sec : Nat) : Int))
  else none

/-- Largest epoch second `datetime.fromtimestamp` accepts (9999-12-31
23:59:59 UTC). -/
def maxEpochSecond : Int := 253402300799

/-- Duration unit words in the alternation order of the regex
`(days?|hours?|minutes?|seconds?|milliseconds?)`, with the greedy optional
plural tried first inside each alternative. -/
def matchUnitWord : List Char → Option (String × List Char)
  | 'd' :: 'a' :: 'y' :: 's' :: r => some ("days", r)
  | 'd' :: 'a' :: 'y' :: r => some ("day", r)
  | 'h' :: 'o' :: 'u' :: 'r' :: 's' :: r => some ("hours", r)
  | 'h' :: 'o' :: 'u' :: 'r' :: r => some ("hour", r)
  | 'm' :: 'i' :: 'n' :: 'u' :: 't' :: 'e' :: 's' :: r => some ("minutes", r)
  | 'm' :: 'i' :: 'n' :: 'u' :: 't' :: 'e' :: r => some ("minute", r)
  | 's' :: 'e' :: 'c' :: 'o' :: 'n' :: 'd' :: 's' :: r => some ("seconds", r)
  | 's' :: 'e' :: 'c' :: 'o' :: 'n' :: 'd' :: r => some ("second", r)
  | 'm' :: 'i' :: 'l' :: 'l' :: 'i' :: 's' :: 'e' :: 'c' :: 'o' :: 'n' :: 'd' :: 's' :: r =>
    some ("milliseconds", r)
  | 'm' :: 'i' :: 'l' :: 'l' :: 'i' :: 's' :: 'e' :: 'c' :: 'o' :: 'n' :: 'd' :: r =>
    some ("millisecond", r)
  | _ => none

/-- Scanner for `re.findall(r'(\d+)\s*(days?|...)', val)`: at each position a
digit run, optional whitespace and a unit word are tried; on failure the scan
restarts one character later, exactly as the regex engine does.  Fuel is the
remaining length, which always suffices. -/
def findDurAux : Nat → List Char → List (Nat × String)
  | 0, _ => []
  | Nat.succ _, [] => []
  | Nat.succ fuel, c :: rest =>
    if c.isDigit then
      let ds := (c :: rest).takeWhile Char.isDigit
      let r1 := (c :: rest).dropWhile Char.isDigit
      let r2 := r1.dropWhile isPySpace
      match matchUnitWord r2 with
      | some (w, r3) => (natOfDigits ds, w) :: findDurAux fuel r3
      | none => findDurAux fuel rest
    else findDurAux fuel rest

/-- All `(integer, unit)` duration tokens of a free-text value. -/
def findDurTokens (s : String) : List (Nat × String) :=
  findDurAux s.toList.length s.toList

/-- Sum of the duration tokens in seconds:
`seconds += int(value) * si_unit_factor[unit.lower()]` starting at `0.0`. -/
def durSeconds (s : String) : PyFloat :=
  (findDurTokens s).foldl
    (fun acc t =>
      pfAdd acc (pfMul (pfOfInt ((t.1 : Nat) : Int))
        (tableGet si_unit_factor (strLower t.2) (pfOfInt 1))))
    ⟨0, 1⟩

/-! ## The Value Typer (`LdapCollector._typed_entries_from_entry_dict`) -/

/-- One typed value: the Python code builds either a pair `(kind, value)` or a
triple `(kind, value, unit)`; `unit = none` models the pair form.  This arity
is observable downstream, where some strategies unpack a triple strictly. -/
structure TypedValue where
  kind : String
  value : PyVal
  unit : Option String
deriving DecidableEq

/-- A typed entry: attribute name to typed value, in insertion order. -/
abbrev TypedEntry := List (String × TypedValue)

/-- The typer's chain for a string-valued attribute, in source order.  The
`isinstance(val, list)` test inside the string branch of the source is
statically false there and contributes nothing.  Returns `none` exactly when
the source's `currtime`/`schedule` branch matches the key but neither inner
pattern matches the value: no assignment to `result[key]` happens there. -/
def typeStrValue (key : String) (s : String) : Option TypedValue :=
  if key = "eDirectoryAgentVersion" then some ⟨"str", pstr s, some "version"⟩
  else if key = "eDirectoryUpTime" then some ⟨"time", pstr s, some "seconds"⟩
  else if key = "nextScheduledRun" then some ⟨"time", pstr s, some "seconds"⟩
  else if key = "EngineVersion" then some ⟨"str", pstr s, some "version"⟩
  else if strEndsWith key "DN" then some ⟨"str", pstr s, some "dn"⟩
  else if isFloatLit s then some ⟨"float", pfloat (parseFloatLit s), none⟩
  else if isIntLit s then
    (if strContains (strLower key) "time" then some ⟨"time", pstr s, some "seconds"⟩
     else some ⟨"int", pint (parseIntLit s), none⟩)
  else
    match parseNumUnit s with
    | some (isF, q, u) =>
      let factor := tableGet si_unit_factor (strLower u) (pfOfInt 1)
      let base := tableGet si_base_units (strLower u) (strLower u)
      if isF then some ⟨"float", pfloat (pfMul q factor), some base⟩
      else some ⟨"int", pint (pfTrunc (pfMul q factor)), some base⟩
    | none =>
      match parseBoolLit s with
      | some b => some ⟨"bool", pbool b, none⟩
      | none =>
        if strContains (strLower key) "currtime" ||
           strContains (strLower key) "schedule" then
          if is14Z s then
            match strptime14Z s with
            | some t => some ⟨"time", pint t, some "seconds"⟩
            | none =>
              some ⟨"error",
                pstr ("time data " ++ s ++ " does not match format %Y%m%d%H%M%SZ"),
                none⟩
          else if isIntLit s then
            (if parseIntLit s ≤ maxEpochSecond then
              some ⟨"time", pint (parseIntLit s), some "seconds"⟩
             else some ⟨"error", pstr "year is out of range", none⟩)
          else none
        else if strLower key = "uptime" || strLower key = "downtime" then
          some ⟨"time", pfloat (durSeconds s), some "seconds"⟩
        else if strLower key = "driver-state" then
          some ⟨"int", pint (tableGet driver_states (strLower s) (-1)), some "statenum"⟩
        else if strLower key = "startoption" then
          some ⟨"int", pint (tableGet start_options (strLower s) (-1)), some "optionnum"⟩
        else if strLower key = "type" then
          some ⟨"int", pint (tableGet types (strLower s) (-1)), some "typnum"⟩
        else if strLower key = "status" then
          some ⟨"int", pint (tableGet job_stats_states (strLower s) (-1)), some "statenum"⟩
        else if strLower key = "configuration" then
          some ⟨"int", pint (tableGet job_stats_configurations (strLower s) (-1)),
            some "statenum"⟩
        else if strLower key = "state" then
          some ⟨"int", pint (tableGet jvm_stats_states (strLower s) (-1)), some "statenum"⟩
        else some ⟨"str", pstr s, some "unknown"⟩

/-- Typing of one attribute: strings go through the classification chain, any
other value is typed by its native kind with no unit
(`result[key] = (type(val).__name__, val)`). -/
def typeValue (key : String) (val : PyVal) : Option TypedValue :=
  match val with
  | PyVal.prim (Prim.str s) => typeStrValue key s
  | v => some ⟨pyTypeName v, v, none⟩

/-- Model of `LdapCollector._typed_entries_from_entry_dict`: each attribute
contributes the typed value `typeValue` gives it, and contributes nothing
when `typeValue` produces none. -/
def typed_entries_from_entry_dict (entry : Attrs) : TypedEntry :=
  entry.filterMap (fun kv => (typeValue kv.1 kv.2).map (fun tv => (kv.1, tv)))

/-! ## Metric records and synthesis strategies (`LdapCollector`) -/

/-- One produced metric-family record: `GaugeMetricFamily` /
`InfoMetricFamily` with its single added sample.  `unitAttr` is the `g.unit`
attribute the code assigns afterwards (`none` models Python `None`). -/
structure MetricRecord where
  name : String
  documentation : String
  labelNames : List String
  labelValues : List PyVal
  isGauge : Bool
  value : PyFloat
  unitAttr : Option String
deriving DecidableEq

/-- Python `repr` of a primitive (the fragment list rendering needs). -/
def primRepr : Prim → String
  | Prim.str s => "\x27" ++ s ++ "\x27"
  | Prim.int n => intToStr n
  | Prim.float q => pfToStr q
  | Prim.bool b => if b then "True" else "False"
  | Prim.bytes bs => "b\x27" ++ (bs.map Char.ofNat).asString ++ "\x27"

/-- Python `str` of a value, as used to coerce info-metric labels. -/
def pyStr : PyVal → String
  | PyVal.prim (Prim.str s) => s
  | PyVal.prim (Prim.int n) => intToStr n
  | PyVal.prim (Prim.float q) => pfToStr q
  | PyVal.prim (Prim.bool b) => if b then "True" else "False"
  | PyVal.prim (Prim.bytes bs) => "b\x27" ++ (bs.map Char.ofNat).asString ++ "\x27"
  | PyVal.list l => "[" ++ String.intercalate ", " (l.map primRepr) ++ "]"

/-- Python `float(s)` on a (stripped) decimal string; exponent forms are not
modelled because no data path of the exporter produces them. -/
def pyParseFloat (s : String) : Option PyFloat :=
  let t := ((s.toList.dropWhile isPySpace).reverse.dropWhile isPySpace).reverse
  let core : Int × List Char :=
    match t with
    | '+' :: r => (1, r)
    | '-' :: r => (-1, r)
    | _ => (1, t)
  let d1 := core.2.takeWhile Char.isDigit
  let r1 := core.2.dropWhile Char.isDigit
  match r1 with
  | [] => if d1.isEmpty then none else some ⟨core.1 * ((natOfDigits d1 : Nat) : Int), 1⟩
  | '.' :: d2 =>
    if d2.all Char.isDigit && !(d1.isEmpty && d2.isEmpty) then
      some (pyFloatNorm
        (core.1 * ((natOfDigits d1 * 10 ^ d2.length + natOfDigits d2 : Nat) : Int))
        (10 ^ d2.length))
    else none
  | _ => none

/-- Python `float(val)` on a typed value's payload; the `Except` carries the
`ValueError`/`TypeError` the conversion raises. -/
def floatOfPy : PyVal → Except String PyFloat
  | PyVal.prim (Prim.int n) => Except.ok ⟨n, 1⟩
  | PyVal.prim (Prim.float q) => Except.ok q
  | PyVal.prim (Prim.bool b) => Except.ok ⟨if b then 1 else 0, 1⟩
  | PyVal.prim (Prim.str s) =>
    match pyParseFloat s with
    | some q => Except.ok q
    | none => Except.error ("could not convert string to float: " ++ s)
  | PyVal.prim (Prim.bytes bs) =>
    if bs.all (fun b => b < 128) then
      match pyParseFloat (bs.map Char.ofNat).asString with
      | some q => Except.ok q
      | none => Except.error "could not convert bytes to float"
    else Except.error "could not convert bytes to float"
  | PyVal.list _ =>
    Except.error "float() argument must be a string or a real number, not list"

/-- Model of `typed_entry_dict.get(k, "n/a")[1]`: the tuple's value on a hit;
on a miss Python indexes the default string, so `"n/a"[1]` gives `"/"`. -/
def getLabelVal (d : TypedEntry) (k : String) : PyVal :=
  match d.lookup k with
  | some tv => tv.value
  | none => pstr "/"

/-- First character of a nonempty string, Python `u[0]`. -/
def firstCharStr (u : String) : String := (u.toList.take 1).asString

/-- Enumeration legend string: `",".join(f"{k}: {v}" for ...)`. -/
def legendOf (t : List (String × Int)) : String :=
  String.intercalate "," (t.map (fun kv => kv.1 ++ ": " ++ intToStr kv.2))

/-- Model of `LdapCollector._generate_pure_info_metric`: every field, coerced
with `str`, becomes a label of one info record, plus the `MetricName` label,
with label keys sorted. -/
def generate_pure_info_metric (metric_name : String) (d : TypedEntry) :
    MetricRecord :=
  let se := sortPairs
    (dictInsert (d.map (fun kv => (kv.1, kv.2.value))) "MetricName" (pstr metric_name))
  ⟨"cn" ++ replaceDots metric_name, "cnMonitor info metric for " ++ metric_name,
   se.map Prod.fst, se.map (fun kv => pstr (pyStr kv.2)), false, ⟨0, 1⟩, none⟩

/-- Gauge loop of `LdapCollector._generate_generic_metrics` over the
non-string, non-error fields. -/
def generic_gauges (metric metric_name : String) :
    List (String × TypedValue) → Except String (List MetricRecord)
  | [] => Except.ok []
  | (key, tv) :: rest =>
    let suffix :=
      match tv.unit with
      | some u => "_" ++ u
      | none => if strEndsWith (strLower key) "count" then "" else "_total"
    match floatOfPy tv.value with
    | Except.error e => Except.error e
    | Except.ok v =>
      match generic_gauges metric metric_name rest with
      | Except.error e => Except.error e
      | Except.ok rs =>
        Except.ok
          (⟨"cn" ++ replaceDots metric ++ "_" ++ key ++ suffix,
            "cnMonitor gauge metric for " ++ metric ++ " - " ++ key,
            ["MetricName", "Submetric"], [pstr metric_name, pstr key],
            true, v,
            some (match tv.unit with | some u => u | none => "")⟩ :: rs)

/-- Model of `LdapCollector._generate_generic_metrics`: one gauge per
non-string non-error field (suffix from the unit, else empty for `...count`
names, else `_total`) followed by one info record carrying all string fields
plus `MetricName`, with sorted label keys. -/
def generate_generic_metrics (metric metric_name : String) (d : TypedEntry) :
    Except String (List MetricRecord) :=
  let nse := d.filter (fun kv => kv.2.kind != "str" && kv.2.kind != "error")
  let se := (d.filter (fun kv => kv.2.kind == "str")).map (fun kv => (kv.1, kv.2.value))
  let se2 := sortPairs (dictInsert se "MetricName" (pstr metric_name))
  let infoRec : MetricRecord :=
    ⟨"cn" ++ replaceDots metric, "cnMonitor info metric for " ++ metric,
     se2.map Prod.fst, se2.map Prod.snd, false, ⟨0, 1⟩, none⟩
  match generic_gauges metric metric_name nse with
  | Except.error e => Except.error e
  | Except.ok rs => Except.ok (rs ++ [infoRec])

/-- Gauge loop of `LdapCollector._generate_driverSet_metrics`. -/
def driverSet_gauges (metric metric_name : String) (dn : PyVal) :
    List (String × TypedValue) → Except String (List MetricRecord)
  | [] => Except.ok []
  | (key, tv) :: rest =>
    match floatOfPy tv.value with
    | Except.error e => Except.error e
    | Except.ok v =>
      match driverSet_gauges metric metric_name dn rest with
      | Except.error e => Except.error e
      | Except.ok rs =>
        Except.ok
          (⟨"cn" ++ replaceDots metric ++ "_" ++ key,
            "cnMonitor gauge metric for " ++ metric ++ " - " ++ key,
            ["MetricName", "DriverSetDN"], [pstr metric_name, dn],
            true, v,
            match tv.unit with
            | some u => if u ≠ "" then some (firstCharStr u) else none
            | none => none⟩ :: rs)

/-- Model of `LdapCollector._generate_driverSet_metrics`: every non-string,
non-error field becomes one gauge named after the entry key and field name
(no suffix), labeled with the metric name and the entry's `driverSetDN`
value.  The assigned unit attribute is `val[2][0]` — the first character of
the unit — when a truthy third tuple component exists, else `None`. -/
def generate_driverSet_metrics (metric metric_name : String) (d : TypedEntry) :
    Except String (List MetricRecord) :=
  driverSet_gauges metric metric_name (getLabelVal d "driverSetDN")
    (d.filter (fun kv => kv.2.kind != "str" && kv.2.kind != "error"))

/-- Gauge loop of `LdapCollector._generate_driver_metrics`.  The `for` header
unpacks each typed value as a strict triple, so a pair raises `ValueError`
before any kind check. -/
def driver_gauges (metric metric_name : String) (dn : PyVal) :
    List (String × TypedValue) → Except String (List MetricRecord)
  | [] => Except.ok []
  | (key, tv) :: rest =>
    match tv.unit with
    | none => Except.error "not enough values to unpack (expected 3, got 2)"
    | some u =>
      if tv.kind != "str" then
        let doc :=
          if strLower key = "startoption" then
            "Start option as numeric option: " ++ legendOf start_options
          else if strLower key = "driver-state" then
            "Driver state as numeric option: " ++ legendOf driver_states
          else if strLower key = "type" then
            "Driver type as numeric option: " ++ legendOf types
          else "cnMonitor driver metric for " ++ metric ++ " - " ++ key
        let suffix := if u ≠ "" then firstCharStr u else "total"
        match floatOfPy tv.value with
        | Except.error e => Except.error e
        | Except.ok v =>
          match driver_gauges metric metric_name dn rest with
          | Except.error e => Except.error e
          | Except.ok rs =>
            Except.ok
              (⟨"cn" ++ replaceDots metric ++ "_" ++ key ++ "_" ++ suffix,
                "cnMonitor gauge metric for " ++ metric ++ " - " ++ key ++ " - " ++ doc,
                ["MetricName", "DriverDN"], [pstr metric_name, dn],
                true, v, some (if u ≠ "" then firstCharStr u else "")⟩ :: rs)
      else driver_gauges metric metric_name dn rest

/-- Model of `LdapCollector._generate_driver_metrics`. -/
def generate_driver_metrics (metric metric_name : String) (d : TypedEntry) :
    Except String (List MetricRecord) :=
  driver_gauges metric metric_name (getLabelVal d "DriverDN") d

/-- Gauge loop of `LdapCollector._generate_job_stats_metrics`, strict-triple
unpacking as in the driver strategy. -/
def job_stats_gauges (metric metric_name : String) (jobDn containment : PyVal) :
    List (String × TypedValue) → Except String (List MetricRecord)
  | [] => Except.ok []
  | (key, tv) :: rest =>
    match tv.unit with
    | none => Except.error "not enough values to unpack (expected 3, got 2)"
    | some u =>
      if tv.kind != "str" then
        let doc :=
          if strLower key = "status" then
            "Job status as numeric option: " ++ legendOf job_stats_states
          else if strLower key = "configuration" then
            "Job configuration as numeric option: " ++ legendOf job_stats_configurations
          else "cnMonitor driver metric for " ++ metric ++ " - " ++ key
        let suffix := if u ≠ "" then firstCharStr u else "total"
        match floatOfPy tv.value with
        | Except.error e => Except.error e
        | Except.ok v =>
          match job_stats_gauges metric metric_name jobDn containment rest with
          | Except.error e => Except.error e
          | Except.ok rs =>
            Except.ok
              (⟨"cn" ++ replaceDots metric ++ "_" ++ key ++ "_" ++ suffix,
                "cnMonitor gauge metric for " ++ metric ++ " - " ++ key ++ " - " ++ doc,
                ["MetricName", "JobDN", "Containment"],
                [pstr metric_name, jobDn, containment],
                true, v, some (if u ≠ "" then firstCharStr u else "")⟩ :: rs)
      else job_stats_gauges metric metric_name jobDn containment rest

/-- Model of `LdapCollector._generate_job_stats_metrics`. -/
def generate_job_stats_metrics (metric metric_name : String) (d : TypedEntry) :
    Except String (List MetricRecord) :=
  job_stats_gauges metric metric_name (getLabelVal d "JobDN")
    (getLabelVal d "containment") d

/-- Model of `LdapCollector._convert_partition_dn`: strip leading dots, keep
the value after the first `=` of each dot-separated component, drop dashes,
join the reversed values with underscores. -/
def convert_partition_dn (dn : String) : String :=
  let s := dn.toList.dropWhile (fun c => c == '.')
  let vals := (splitOnChar '.' s).filterMap
    (fun p =>
      if listHasSub ['='] p then
        some (((splitOnChar '=' p).getD 1 []).filter (fun c => c != '-')).asString
      else none)
  String.intercalate "_" vals.reverse

/-- Python `s.split('#', 1)` as a pair. -/
def splitFirstHash (s : String) : String × String :=
  ((s.toList.takeWhile (fun c => c != '#')).asString,
   ((s.toList.dropWhile (fun c => c != '#')).drop 1).asString)

/-- Model of `any('#' in item for item in val)`: short-circuit scan; a
non-string item reached before a hit raises `TypeError`. -/
def anyItemHasHash : List Prim → Except String Bool
  | [] => Except.ok false
  | Prim.str s :: rest =>
    if strContains s "#" then Except.ok true else anyItemHasHash rest
  | _ :: _ => Except.error "argument of type int is not iterable"

/-- Inner item loop of `LdapCollector._generate_partition_metrics`. -/
def partition_items (metric metric_name key unit : String) :
    List Prim → Except String (List MetricRecord)
  | [] => Except.ok []
  | Prim.str s :: rest =>
    if strContains s "#" then
      let parts := splitFirstHash s
      let pname := convert_partition_dn parts.1
      let v := if isIntLit parts.2 then pfOfInt (parseIntLit parts.2) else pfOfInt 0
      match partition_items metric metric_name key unit rest with
      | Except.error e => Except.error e
      | Except.ok rs =>
        Except.ok
          (⟨"cn" ++ replaceDots metric ++ "_" ++ key ++ "_" ++ pname ++ "_" ++ unit,
            "cnMonitor partition metric for " ++ metric ++ " - " ++ key ++ " - " ++ pname,
            ["MetricName", "Submetric", "Partition"],
            [pstr metric_name, pstr key, pstr pname],
            true, v, some unit⟩ :: rs)
    else partition_items metric metric_name key unit rest
  | _ :: _ => Except.error "argument of type int is not iterable"

/-- Field loop of `LdapCollector._generate_partition_metrics`. -/
def partition_fields (metric metric_name : String) :
    List (String × TypedValue) → Except String (List MetricRecord)
  | [] => Except.ok []
  | (key, tv) :: rest =>
    let unit := if strLower key = "maxringdelta" then "seconds" else "total"
    if tv.kind == "list" then
      match tv.value with
      | PyVal.list l =>
        (match anyItemHasHash l with
         | Except.error e => Except.error e
         | Except.ok true =>
           match partition_items metric metric_name key unit l with
           | Except.error e => Except.error e
           | Except.ok rs =>
             match partition_fields metric metric_name rest with
             | Except.error e => Except.error e
             | Except.ok rs2 => Except.ok (rs ++ rs2)
         | Except.ok false => partition_fields metric metric_name rest)
      | _ => partition_fields metric metric_name rest
    else partition_fields metric metric_name rest

/-- Model of `LdapCollector._generate_partition_metrics`. -/
def generate_partition_metrics (metric metric_name : String) (d : TypedEntry) :
    Except String (List MetricRecord) :=
  partition_fields metric metric_name d

/-! ## The collector (`LdapCollector.collect` and `_extend_metrics`) -/

/-- The fixed self-status info record yielded first by every scrape. -/
def collector_info_record : MetricRecord :=
  ⟨"cnMonitor_collector", "Information about the cnMonitor LDAP Collector",
   ["status"], [pstr "running"], false, ⟨0, 1⟩, none⟩

/-- The total-cached-entries gauge yielded second by every scrape. -/
def entries_total_record (ldap_results : Snapshot) : MetricRecord :=
  ⟨"cnMonitor_entries_total", "Total cnMonitor entries found", [], [],
   true, pfOfInt ((ldap_results.length : Nat) : Int), none⟩

/-- The entry used for the connection info record:
`ldap_results.get("Monitor.Connection", {...default...})`. -/
def connection_info_entry (ldap_results : Snapshot) : Attrs :=
  match ldap_results.lookup "Monitor.Connection" with
  | some e => e
  | none => [("hostname", pstr "n/a"), ("bound", pbool false), ("status", pstr "n/a")]

/-- Per-configured-name step of `collect`: look the name up in the snapshot
(a missing or empty entry yields nothing), type the entry, and dispatch to
the strategy selected by the source's `if`/`elif` chain, in source order. -/
def collect_metric (ldap_results : Snapshot) (metric : String) :
    Except String (List MetricRecord) :=
  match ldap_results.lookup metric with
  | none => Except.ok []
  | some entry =>
    if entry.isEmpty then Except.ok []
    else
      let d := typed_entries_from_entry_dict entry
      if metric = "Monitor.IDM.driverSet_Stats" then
        generate_driverSet_metrics metric metric d
      else if strContains metric "driverSet_Stats.drivers" &&
          (strSplitOn metric '.').length = 5 then
        generate_driver_metrics metric metric d
      else if strContains metric "job_stats" then
        generate_job_stats_metrics metric metric d
      else if metric = "Monitor.Agent.Partition" then
        generate_partition_metrics metric metric d
      else if metric = "Monitor.IDM.jvm_stats.runtime_stats.system_properties" then
        Except.ok [generate_pure_info_metric metric d]
      else generate_generic_metrics metric metric d

/-- The loop of `collect` over the configured names; the generator has no
exception handler, so the first error ends the whole scrape. -/
def collect_loop (ldap_results : Snapshot) :
    List String → Except String (List MetricRecord)
  | [] => Except.ok []
  | m :: rest =>
    match collect_metric ldap_results m with
    | Except.error e => Except.error e
    | Except.ok rs =>
      match collect_loop ldap_results rest with
      | Except.error e => Except.error e
      | Except.ok rs2 => Except.ok (rs ++ rs2)

/-- Model of `LdapCollector.collect` over one snapshot: the self-status info
record, the entry-count gauge, the connection info record, then the records
of every configured name in order.  An exception anywhere aborts the scrape
(`Except.error`). -/
def collect (ldap_results : Snapshot) (metrics : List String) :
    Except String (List MetricRecord) :=
  match collect_loop ldap_results metrics with
  | Except.error e => Except.error e
  | Except.ok rs =>
    Except.ok (collector_info_record :: entries_total_record ldap_results ::
      generate_pure_info_metric "Monitor.Connection"
        (typed_entries_from_entry_dict (connection_info_entry ldap_results)) :: rs)

/-- Model of `LdapCollector._extend_metrics`, run once at construction: for
every configured pattern ending in `.*` (collected from the original list
first), append every snapshot key starting with `metric[:-2]` — the pattern
with only its final two characters removed, so the prefix carries no trailing
dot. -/
def extend_metrics (metrics : List String) (resultKeys : List String) :
    List String :=
  (metrics.filter (fun m => strEndsWith m ".*")).foldl
    (fun acc m => acc ++ resultKeys.filter (fun k => strStartsWith k (dropLast2 m)))
    metrics

/-! ## Definition taken from the specification text, and concrete inputs -/

/-- Modelled from the spec (amended reading of the DN-normalization sentence):
split on commas, reverse the component order, in each component remove every
occurrence of `cn=` and replace whitespace runs with underscores, join with
dots.  Stated separately from `dn_to_metric_name` so the source's algorithm
can be proved to refine this description. -/
def spec_dn_normalize (dn : String) : String :=
  (List.intercalate ['.']
    ((splitOnChar ',' dn.toList).reverse.map
      (fun p => collapseWs (removeCn p)))).asString

/-- Driver-set summary entry with the three counters of the end-to-end
example plus its `driverSetDN` field. -/
def entryC8 : Attrs :=
  [("numberOfDrivers", pint 3), ("running", pint 2), ("starting", pint 0),
   ("driverSetDN", pstr "cn=driverset0,o=system")]

/-- Snapshot with a per-driver entry whose `retries` field types to a unitless
pair, followed by a second configured entry. -/
def snapC3 : Snapshot :=
  [("Monitor.IDM.driverSet_Stats.drivers.driver1",
    [("DriverDN", pstr "cn=driver1,cn=driverset0,o=system"),
     ("retries", pstr "5")]),
   ("Monitor.Other", [("foo", pstr "1")])]

/-- Search result whose single entry's key sorts before `Monitor.Connection`. -/
def resC9 : SearchRes := [("cn=Agent", [("x", pstr "1")])]

/-- The raw (insertion-ordered) mapping the first `get_cached_results` call
returns for `resC9`: the synthetic connection entry first, then the entry. -/
def rawC9 : Snapshot :=
  [("Monitor.Connection", [("hostname", pstr "ldap.example.org"), ("bound", pbool true)]),
   ("Agent", [("x", pstr "1")])]

/-- Attribute map with an `objectclass` attribute and a one-element list
holding the UTF-8 bytes of `"hi"`. -/
def attrsC10 : Attrs :=
  [("objectclass", pstr "top"), ("b", PyVal.list [Prim.bytes [104, 105]])]

/-- Search result delivering `attrsC10` under the DN `cn=A`. -/
def resC10 : SearchRes := [("cn=A", attrsC10)]

/-! ## Helper lemmas -/

/-- Totality of the code-point lexicographic order. -/
theorem lexLe_total (a : List Char) : ∀ b, lexLe a b = true ∨ lexLe b a = true := by
  induction a with
  | nil => intro b; left; cases b <;> simp [lexLe]
  | cons x xs ih =>
    intro b
    cases b with
    | nil => right; simp [lexLe]
    | cons y ys =>
      by_cases h1 : x.toNat < y.toNat
      · left; simp [lexLe, h1]
      · by_cases h2 : y.toNat < x.toNat
        · right; simp [lexLe, h2]
        · rcases ih ys with h | h
          · left; simp [lexLe, h1, h2, h]
          · right; simp [lexLe, h1, h2, h]

/-- Transitivity of the code-point lexicographic order. -/
theorem lexLe_trans (a : List Char) :
    ∀ b c, lexLe a b = true → lexLe b c = true → lexLe a c = true := by
  induction a with
  | nil => intro b c _ _; cases c <;> simp [lexLe]
  | cons x xs ih =>
    intro b c hab hbc
    cases b with
    | nil => simp [lexLe] at hab
    | cons y ys =>
      cases c with
      | nil => simp [lexLe] at hbc
      | cons z zs =>
        simp only [lexLe] at hab hbc ⊢
        by_cases hxy : x.toNat < y.toNat
        · by_cases hyz : y.toNat < z.toNat
          · simp [show x.toNat < z.toNat by omega]
          · by_cases hzy : z.toNat < y.toNat
            · simp [hyz, hzy] at hbc
            · simp [show x.toNat < z.toNat by omega]
        · by_cases hyx : y.toNat < x.toNat
          · simp [hxy, hyx] at hab
          · by_cases hyz : y.toNat < z.toNat
            · simp [show x.toNat < z.toNat by omega]
            · by_cases hzy : z.toNat < y.toNat
              · simp [hyz, hzy] at hbc
              · simp [hxy, hyx] at hab
                simp [hyz, hzy] at hbc
                simp [show ¬x.toNat < z.toNat by omega,
                  show ¬z.toNat < x.toNat by omega]
                exact ih ys zs hab hbc

/-- Sortedness in the `List.Sorted` sense gives the adjacent-pairs check. -/
theorem keysAdjSorted_of_sorted {α : Type} :
    ∀ l : List (String × α), List.Sorted keyLe l → keysAdjSorted l = true := by
  intro l
  induction l with
  | nil => intro _; rfl
  | cons a t ih =>
    intro h
    rw [List.sorted_cons] at h
    cases t with
    | nil => rfl
    | cons b t2 =>
      have hb : strLe a.1 b.1 = true := h.1 b (by simp)
      have ht := ih h.2
      simp [keysAdjSorted, hb, ht]

/-- The sorted mapping published by the cache has adjacent keys in order. -/
theorem keysAdjSorted_sortPairs {α : Type} (l : List (String × α)) :
    keysAdjSorted (sortPairs l) = true :=
  keysAdjSorted_of_sorted _
    (@List.sorted_insertionSort _ keyLe _
      ⟨fun a b => lexLe_total a.1.toList b.1.toList⟩
      ⟨fun a b c => lexLe_trans a.1.toList b.1.toList c.1.toList⟩ l)

/-- Membership is preserved by the sorting step. -/
theorem mem_sortPairs {α : Type} (x : String × α) (l : List (String × α)) :
    x ∈ sortPairs l ↔ x ∈ l :=
  (List.perm_insertionSort keyLe l).mem_iff

/-- Every element of a `dictInsert` result is the inserted pair or an
element of the original list. -/
theorem mem_dictInsert {α : Type} (l : List (String × α)) (k : String) (v : α)
    (x : String × α) (hx : x ∈ dictInsert l k v) : x = (k, v) ∨ x ∈ l := by
  unfold dictInsert at hx
  by_cases ha : l.any (fun p => p.1 = k)
  · rw [if_pos ha] at hx
    rcases List.mem_map.mp hx with ⟨y, hy, he⟩
    by_cases hk : y.1 = k
    · left; rw [if_pos hk] at he; exact he.symm
    · right; rw [if_neg hk] at he; rw [← he]; exact hy
  · rw [if_neg ha] at hx
    rcases List.mem_append.mp hx with h | h
    · right; exact h
    · left; simpa using h

/-- Elements of the cache-building fold come from the initial mapping or are
(normalized DN, unraveled attributes) pairs of search results. -/
theorem mem_build_fold (res : SearchRes) :
    ∀ (init : Snapshot) (x : String × Attrs),
      x ∈ res.foldl
        (fun acc e => dictInsert acc (dn_to_metric_name e.1) (unravel_values e.2))
        init →
      x ∈ init ∨ ∃ e, e ∈ res ∧ x = (dn_to_metric_name e.1, unravel_values e.2) := by
  induction res with
  | nil => intro init x hx; left; simpa using hx
  | cons a t ih =>
    intro init x hx
    rw [List.foldl_cons] at hx
    rcases ih _ x hx with hi | ⟨e, he, hxe⟩
    · rcases mem_dictInsert _ _ _ _ hi with hxa | hi2
      · right; exact ⟨a, by simp, hxa⟩
      · left; exact hi2
    · right; exact ⟨e, by simp [he], hxe⟩

/-- Pairs surviving `unravel_values` never carry the `objectclass` key and
are unraveled versions of input pairs. -/
theorem mem_unravel_values (attrs : Attrs) (k : String) (v : PyVal)
    (h : (k, v) ∈ unravel_values attrs) :
    k ≠ "objectclass" ∧ ∃ v0, (k, v0) ∈ attrs ∧ v = unravelVal v0 := by
  unfold unravel_values at h
  rcases List.mem_filterMap.mp h with ⟨kv, hkv, he⟩
  by_cases hk : kv.1 = "objectclass"
  · rw [if_pos hk] at he; cases he
  · rw [if_neg hk] at he
    have h1 : kv.1 = k := congrArg Prod.fst (Option.some.inj he)
    have h2 : unravelVal kv.2 = v := congrArg Prod.snd (Option.some.inj he)
    constructor
    · rw [← h1]; exact hk
    · exact ⟨kv.2, by rw [← h1]; exact hkv, h2.symm⟩

/-- The unravel step never produces a one-element list. -/
theorem unravelVal_not_singleton (v0 : PyVal) :
    ∀ l : List Prim, unravelVal v0 = PyVal.list l → l.length ≠ 1 := by
  cases v0 with
  | prim p => intro l h; cases h
  | list l0 =>
    match l0 with
    | [] => intro l h; cases h; simp
    | [a] => intro l h; cases h
    | a :: b :: t =>
      intro l h
      cases h
      simp

/-- A scrape whose per-name loop contains a failing configured name never
produces a record list. -/
theorem collect_loop_error_of_metric_error (snap : Snapshot) (ms2 : List String)
    (m e : String) (h : collect_metric snap m = Except.error e) :
    ∀ (ms1 : List String) (rs : List MetricRecord),
      collect_loop snap (ms1 ++ m :: ms2) ≠ Except.ok rs := by
  intro ms1
  induction ms1 with
  | nil =>
    intro rs hc
    rw [List.nil_append] at hc
    simp [collect_loop, h] at hc
  | cons a tl ih =>
    intro rs hc
    rw [List.cons_append] at hc
    cases ha : collect_metric snap a with
    | error e2 => simp [collect_loop, ha] at hc
    | ok ra =>
      cases hl : collect_loop snap (tl ++ m :: ms2) with
      | error e2 => simp [collect_loop, ha, hl] at hc
      | ok rl => exact ih rl hl

/-! ## Claim theorems -/

/-- C1 (counterexample).  The normalizer only deletes `cn=` markers; the
`o=` marker of the example DN survives, so the entry key is
`o=System.DriverSet.driverset0`, not the claimed `System.DriverSet.driverset0`. -/
theorem c1_counterexample :
    dn_to_metric_name "cn=driverset0,cn=DriverSet,o=System" =
      "o=System.DriverSet.driverset0" ∧
    "o=System.DriverSet.driverset0" ≠ "System.DriverSet.driverset0" := by
  decide

/-- C1 (amended).  For every DN string, the normalizer splits on commas,
removes every occurrence of `cn=` from each component (other attribute
markers such as `o=` are kept), replaces whitespace runs with underscores,
reverses the component order and joins with dots; in particular the example
DN normalizes to `o=System.DriverSet.driverset0`. -/
theorem c1_dn_normalizer_refines_spec :
    (∀ dn, dn_to_metric_name dn = spec_dn_normalize dn) ∧
    dn_to_metric_name "cn=driverset0,cn=DriverSet,o=System" =
      "o=System.DriverSet.driverset0" := by
  constructor
  · intro dn
    simp [dn_to_metric_name, spec_dn_normalize, List.map_reverse, List.map_map,
      Function.comp_def]
  · decide

/-- C2 (code bug).  For the attribute `currtime` with value `"abc"` — a name
containing `currtime` whose value matches neither the 14-digit-plus-Z format
nor a pure integer — the typer stores nothing for the key: the typed entry is
empty instead of containing one `error`-kind value per the contract stated in
the function's own docstring. -/
theorem c2_currtime_unmatched_drops_key :
    typed_entries_from_entry_dict [("currtime", pstr "abc")] = [] ∧
    typeValue "currtime" (pstr "abc") = none := by
  decide

/-- C4 (counterexample).  `"2.5 hours"` is scaled by 3600 but tagged with the
literal unit `hours` — `hours` is absent from `si_base_units` — so the result
is `(float, 9000.0, "hours")`, not the claimed `(float, 9000.0, "seconds")`. -/
theorem c4_counterexample :
    typeValue "cacheAge" (pstr "2.5 hours") =
      some ⟨"float", pfloat ⟨9000, 1⟩, some "hours"⟩ ∧
    typeValue "cacheAge" (pstr "2.5 hours") ≠
      some ⟨"float", pfloat ⟨9000, 1⟩, some "seconds"⟩ := by
  decide

/-- C4 (amended).  For a string value of the form number-whitespace-unit
reaching the unit rule, the typer multiplies the magnitude by the factor from
`si_unit_factor` (1 for unknown units) and tags the result with the
`si_base_units` entry for the lower-cased unit, falling back to the
lower-cased literal unit itself; `"512 KB"` gives `(int, 524288, "bytes")`,
while `"2.5 hours"` gives `(float, 9000.0, "hours")` because no duration word
except `ms`/`seconds` occurs in the base-unit table. -/
theorem c4_number_with_unit (key s : String) (isF : Bool) (q : PyFloat)
    (u : String)
    (h1 : key ≠ "eDirectoryAgentVersion") (h2 : key ≠ "eDirectoryUpTime")
    (h3 : key ≠ "nextScheduledRun") (h4 : key ≠ "EngineVersion")
    (h5 : strEndsWith key "DN" = false) (h6 : isFloatLit s = false)
    (h7 : isIntLit s = false) (h8 : parseNumUnit s = some (isF, q, u)) :
    typeValue key (pstr s) =
      some
        (if isF then
          ⟨"float",
           pfloat (pfMul q (tableGet si_unit_factor (strLower u) (pfOfInt 1))),
           some (tableGet si_base_units (strLower u) (strLower u))⟩
         else
          ⟨"int",
           pint (pfTrunc (pfMul q (tableGet si_unit_factor (strLower u) (pfOfInt 1)))),
           some (tableGet si_base_units (strLower u) (strLower u))⟩) := by
  cases isF <;>
    simp [typeValue, pstr, typeStrValue, h1, h2, h3, h4, h5, h6, h7, h8]

/-- C4 (witness).  The amended rule applied at `("cacheSize", "512 KB")`. -/
theorem c4_witness :
    parseNumUnit "512 KB" = some (false, ⟨512, 1⟩, "KB") ∧
    typeValue "cacheSize" (pstr "512 KB") =
      some ⟨"int", pint 524288, some "bytes"⟩ := by
  constructor
  · decide
  · rw [c4_number_with_unit "cacheSize" "512 KB" false ⟨512, 1⟩ "KB"
      (by decide) (by decide) (by decide) (by decide) (by decide) (by decide)
      (by decide) (by decide)]
    decide

/-- C5 (confirmed).  Every string-valued attribute whose name ends in `DN`
types to kind `str` with unit `dn`, whatever the literal looks like: the `DN`
check precedes the numeric-literal rules, and none of the four name-override
keys checked earlier ends in `DN`. -/
theorem c5_dn_names_type_str_dn (key s : String)
    (h : strEndsWith key "DN" = true) :
    typeValue key (pstr s) = some ⟨"str", pstr s, some "dn"⟩ := by
  have h1 : key ≠ "eDirectoryAgentVersion" := by
    intro e; subst e; exact absurd h (by decide)
  have h2 : key ≠ "eDirectoryUpTime" := by
    intro e; subst e; exact absurd h (by decide)
  have h3 : key ≠ "nextScheduledRun" := by
    intro e; subst e; exact absurd h (by decide)
  have h4 : key ≠ "EngineVersion" := by
    intro e; subst e; exact absurd h (by decide)
  simp [typeValue, pstr, typeStrValue, h1, h2, h3, h4, h]

/-- C5 (witness).  A numeric-looking literal under a `DN`-suffixed name. -/
theorem c5_witness :
    strEndsWith "parentDN" "DN" = true ∧
    typeValue "parentDN" (pstr "42") = some ⟨"str", pstr "42", some "dn"⟩ :=
  ⟨by decide, c5_dn_names_type_str_dn "parentDN" "42" (by decide)⟩

/-- Membership in the wildcard-expansion fold: an element is in the
accumulator or is a result key matching one of the folded patterns. -/
theorem extend_foldl_mem (resultKeys : List String) (k : String) :
    ∀ (ws acc : List String),
      k ∈ ws.foldl
        (fun a m => a ++ resultKeys.filter (fun x => strStartsWith x (dropLast2 m)))
        acc ↔
      k ∈ acc ∨ ∃ m, m ∈ ws ∧ k ∈ resultKeys ∧
        strStartsWith k (dropLast2 m) = true := by
  intro ws
  induction ws with
  | nil => intro acc; simp
  | cons w ws ih =>
    intro acc
    rw [List.foldl_cons, ih]
    simp [List.mem_append, List.mem_filter]
    tauto

/-- C6 (amended).  At construction every pattern ending in `.*` is expanded by
appending exactly those snapshot keys that start with the pattern minus its
final two characters — the literal prefix `X` for pattern `X.*`, with no
trailing dot — and with the example snapshot keys the expansion still adds
exactly the two `job_stats` keys and not `Monitor.Other`.  (The expansion is
run once, at construction: `collect` consumes the metric list unchanged.) -/
theorem c6_wildcard_expansion :
    (∀ (metrics resultKeys : List String) (k : String),
      k ∈ extend_metrics metrics resultKeys ↔
        k ∈ metrics ∨ (k ∈ resultKeys ∧ ∃ m, m ∈ metrics ∧
          strEndsWith m ".*" = true ∧ strStartsWith k (dropLast2 m) = true)) ∧
    extend_metrics ["Monitor.IDM.job_stats.*"]
        ["Monitor.IDM.job_stats.A", "Monitor.IDM.job_stats.B", "Monitor.Other"] =
      ["Monitor.IDM.job_stats.*", "Monitor.IDM.job_stats.A",
       "Monitor.IDM.job_stats.B"] := by
  constructor
  · intro metrics resultKeys k
    unfold extend_metrics
    rw [extend_foldl_mem]
    simp [List.mem_filter]
    tauto
  · decide

/-- C6 (counterexample).  A snapshot key that extends the prefix without the
dot is appended although it does not start with `"X."`: with pattern
`Monitor.IDM.job_stats.*`, the key `Monitor.IDM.job_statsX` is added. -/
theorem c6_counterexample :
    extend_metrics ["Monitor.IDM.job_stats.*"] ["Monitor.IDM.job_statsX"] =
      ["Monitor.IDM.job_stats.*", "Monitor.IDM.job_statsX"] ∧
    strStartsWith "Monitor.IDM.job_statsX" "Monitor.IDM.job_stats." = false := by
  decide

/-- C3 (amended).  An error raised while synthesizing metrics for one
configured entry is not caught: whenever any configured name's synthesis step
errors, the whole scrape produces no record list at all, so records for the
other configured names are not delivered.  (Typing errors, by contrast, are
absorbed into `error`-kind values and do not raise.) -/
theorem c3_synthesis_error_aborts_scrape (snap : Snapshot)
    (ms1 ms2 : List String) (m e : String)
    (h : collect_metric snap m = Except.error e) (rs : List MetricRecord) :
    collect snap (ms1 ++ m :: ms2) ≠ Except.ok rs := by
  intro hc
  cases hl : collect_loop snap (ms1 ++ m :: ms2) with
  | error e2 => simp [collect, hl] at hc
  | ok rl => exact collect_loop_error_of_metric_error snap ms2 m e h ms1 rl hl

/-- C3 (witness).  The abort theorem applied to the concrete snapshot: the
driver entry's unitless `retries` pair makes the scrape fail, so the present
`Monitor.Other` entry yields nothing. -/
theorem c3_witness :
    collect snapC3
      ["Monitor.IDM.driverSet_Stats.drivers.driver1", "Monitor.Other"] ≠
      Except.ok [] :=
  c3_synthesis_error_aborts_scrape snapC3 []
    ["Monitor.Other"] "Monitor.IDM.driverSet_Stats.drivers.driver1"
    "not enough values to unpack (expected 3, got 2)" (by decide) []

/-- C3 (counterexample).  The concrete scrape aborts with the unpack error
even though the second configured name is present in the snapshot. -/
theorem c3_counterexample :
    collect snapC3
      ["Monitor.IDM.driverSet_Stats.drivers.driver1", "Monitor.Other"] =
      Except.error "not enough values to unpack (expected 3, got 2)" ∧
    (snapC3.lookup "Monitor.Other").isSome = true := by
  decide

/-- C7 (confirmed).  When a refresh cycle fails — the search raises, or the
connection is unbound and reconnecting fails — after a snapshot has been
published, the published snapshot is unchanged and `get_cached_results`
still answers with it, never surfacing the failure. -/
theorem c7_refresh_failure_keeps_snapshot (st : ClientState) (env : RefreshEnv)
    (s : Snapshot) (hs : st.cache = some s)
    (hfail : (∃ e, env.searchResult = Except.error e) ∨
      (st.bound = false ∧ env.reconnectOk = false)) :
    (periodic_refresh_once st env).cache = some s ∧
    ∀ (sr : Except String SearchRes) (hn : String) (bd : Bool),
      (get_cached_results (periodic_refresh_once st env).cache sr hn bd).1 =
        Except.ok s := by
  have hc : (periodic_refresh_once st env).cache = some s := by
    rcases hfail with ⟨e, he⟩ | ⟨hb, hr⟩
    · cases hb2 : st.bound
      · cases hr2 : env.reconnectOk
        · simp [periodic_refresh_once, hb2, hr2, hs]
        · simp [periodic_refresh_once, hb2, hr2, he, hs]
      · simp [periodic_refresh_once, hb2, he, hs]
    · simp [periodic_refresh_once, hb, hr, hs]
  refine ⟨hc, ?_⟩
  intro sr hn bd
  rw [hc]
  rfl

/-- C7 (witness).  A bound client with a published snapshot whose next search
raises keeps serving the snapshot. -/
theorem c7_witness :
    (periodic_refresh_once ⟨some [("k", [])], true⟩
        ⟨Except.error "down", true, "h"⟩).cache = some [("k", [])] ∧
    (get_cached_results
        (periodic_refresh_once ⟨some [("k", [])], true⟩
          ⟨Except.error "down", true, "h"⟩).cache
        (Except.ok []) "x" false).1 = Except.ok [("k", [])] := by
  have h := c7_refresh_failure_keeps_snapshot ⟨some [("k", [])], true⟩
    ⟨Except.error "down", true, "h"⟩ [("k", [])] rfl (Or.inl ⟨"down", rfl⟩)
  exact ⟨h.1, h.2 (Except.ok []) "x" false⟩

/-- C8 (amended).  For a driver-set summary entry with integer fields
`numberOfDrivers=3, running=2, starting=0` and its `driverSetDN`, synthesis
yields exactly three gauge records — named after the entry key and field name
with no suffix at all — each labeled with the metric name and the entry's
`driverSetDN` value, with values 3.0, 2.0 and 0.0 respectively. -/
theorem c8_driverset_metrics_eval :
    generate_driverSet_metrics "Monitor.IDM.driverSet_Stats"
      "Monitor.IDM.driverSet_Stats" (typed_entries_from_entry_dict entryC8) =
    Except.ok
      [⟨"cnMonitor_IDM_driverSet_Stats_numberOfDrivers",
        "cnMonitor gauge metric for Monitor.IDM.driverSet_Stats - numberOfDrivers",
        ["MetricName", "DriverSetDN"],
        [pstr "Monitor.IDM.driverSet_Stats", pstr "cn=driverset0,o=system"],
        true, ⟨3, 1⟩, none⟩,
       ⟨"cnMonitor_IDM_driverSet_Stats_running",
        "cnMonitor gauge metric for Monitor.IDM.driverSet_Stats - running",
        ["MetricName", "DriverSetDN"],
        [pstr "Monitor.IDM.driverSet_Stats", pstr "cn=driverset0,o=system"],
        true, ⟨2, 1⟩, none⟩,
       ⟨"cnMonitor_IDM_driverSet_Stats_starting",
        "cnMonitor gauge metric for Monitor.IDM.driverSet_Stats - starting",
        ["MetricName", "DriverSetDN"],
        [pstr "Monitor.IDM.driverSet_Stats", pstr "cn=driverset0,o=system"],
        true, ⟨0, 1⟩, none⟩] := by
  decide

/-- C8 (counterexample).  The three produced gauge names carry no `total`
suffix — the driver-set strategy appends nothing after the field name. -/
theorem c8_counterexample :
    (generate_driverSet_metrics "Monitor.IDM.driverSet_Stats"
        "Monitor.IDM.driverSet_Stats"
        (typed_entries_from_entry_dict entryC8)).toOption.map
        (fun rs => rs.map MetricRecord.name) =
      some ["cnMonitor_IDM_driverSet_Stats_numberOfDrivers",
            "cnMonitor_IDM_driverSet_Stats_running",
            "cnMonitor_IDM_driverSet_Stats_starting"] ∧
    (["cnMonitor_IDM_driverSet_Stats_numberOfDrivers",
      "cnMonitor_IDM_driverSet_Stats_running",
      "cnMonitor_IDM_driverSet_Stats_starting"].all
        (fun n => !strContains n "total")) = true := by
  decide

/-- C9 (amended).  The snapshot stored in the cache is always sorted by key,
and every later `get_cached_results` read delivers that stored snapshot
unchanged; the very first call, however, returns the raw insertion-ordered
mapping built by the inline refresh, which need not be sorted. -/
theorem c9_published_snapshots_sorted (res : SearchRes) (hostname : String)
    (bound : Bool) (sr : Except String SearchRes) (hn : String) (bd : Bool) :
    keysAdjSorted (update_cache res hostname bound).1 = true ∧
    (get_cached_results (some (update_cache res hostname bound).1) sr hn bd).1 =
      Except.ok (update_cache res hostname bound).1 :=
  ⟨keysAdjSorted_sortPairs _, rfl⟩

/-- C9 (counterexample).  The first call's inline refresh returns the raw
mapping with `Monitor.Connection` first; an entry whose key sorts before it
makes that returned snapshot violate the adjacent-key order. -/
theorem c9_counterexample :
    (get_cached_results none (Except.ok resC9) "ldap.example.org" true).1 =
      Except.ok rawC9 ∧
    keysAdjSorted rawC9 = false := by
  decide

/-- C10 (confirmed).  Every entry of the published snapshot other than the
synthetic `Monitor.Connection` one contains no `objectclass` key and no
one-element-list value; and a raw attribute holding a one-element list is
stored as that single element, bytes decoded to UTF-8 when possible. -/
theorem c10_unravel_invariant :
    (∀ (res : SearchRes) (hostname : String) (bound : Bool) (ek : String)
        (entry : Attrs), (ek, entry) ∈ (update_cache res hostname bound).1 →
      ek ≠ "Monitor.Connection" →
      ∀ (k : String) (v : PyVal), (k, v) ∈ entry →
        k ≠ "objectclass" ∧ ∀ l, v = PyVal.list l → l.length ≠ 1) ∧
    (∀ (attrs : Attrs) (k : String) (p : Prim),
      (k, PyVal.list [p]) ∈ attrs → k ≠ "objectclass" →
      (k, PyVal.prim (unravelPrim p)) ∈ unravel_values attrs) := by
  constructor
  · intro res hostname bound ek entry hmem hnc k v hkv
    have hb : (ek, entry) ∈ build_new_cache res hostname bound :=
      (mem_sortPairs _ _).mp hmem
    unfold build_new_cache at hb
    rcases mem_build_fold res _ (ek, entry) hb with hinit | ⟨e, _, hx⟩
    · exfalso
      apply hnc
      have := List.mem_singleton.mp hinit
      exact congrArg Prod.fst this
    · have hent : entry = unravel_values e.2 := congrArg Prod.snd hx
      rw [hent] at hkv
      obtain ⟨hk, v0, _, hv⟩ := mem_unravel_values e.2 k v hkv
      refine ⟨hk, fun l hl => ?_⟩
      rw [hv] at hl
      exact unravelVal_not_singleton v0 l hl
  · intro attrs k p hmem hk
    unfold unravel_values
    apply List.mem_filterMap.mpr
    exact ⟨(k, PyVal.list [p]), hmem, by simp [hk, unravelVal]⟩

/-- C10 (witness).  The invariant applied to a concrete refresh: the entry
for `cn=A` keeps `b` (whose one-element byte list is decoded to `"hi"`) and
drops `objectclass`. -/
theorem c10_witness :
    ("b" ≠ "objectclass" ∧
      ∀ l, pstr "hi" = PyVal.list l → l.length ≠ 1) ∧
    ("b", pstr "hi") ∈ unravel_values attrsC10 := by
  constructor
  · exact (c10_unravel_invariant).1 resC10 "h" true "A" [("b", pstr "hi")]
      (by decide) (by decide) "b" (pstr "hi") (by decide)
  · have h := (c10_unravel_invariant).2 attrsC10 "b" (Prim.bytes [104, 105])
      (by decide) (by decide)
    have he : PyVal.prim (unravelPrim (Prim.bytes [104, 105])) = pstr "hi" := by
      decide
    rw [he] at h
    exact h
